import Mathlib

/-!
# TaskTracker - verification of the order lifecycle, assignment and location subsystem

Shallow embedding of the TypeScript delivery-platform server:
* data model from the Drizzle table declarations in shared/schema.ts,
* the storage layer DatabaseStorage from the server storage module,
* the HTTP route handlers and Socket.IO event handlers from the server
  routes module.

Conventions of the embedding:
* Timestamps are milliseconds since the epoch (JS Date.now), modelled as Nat.
* JS numbers occurring as geographic coordinates are modelled as exact
  rationals (Rat); the source serialises them to decimal strings with
  toString before storing, which is value-preserving for our purposes.
* DB text columns are String; nullable columns are Option.
* A SQL UPDATE ... WHERE is a map over the row list that rewrites every
  matching row; a SELECT ... WHERE is a filter; LIMIT 1 / destructuring the
  first element of the result set is head?.
* ORDER BY timestamp DESC guarantees only a non-increasing permutation of
  the selected rows (legalOrderByTsDesc below): the relative order of tied
  timestamps is unspecified and independent across queries.  The executable
  query functions use one legal refinement (a stable insertion sort);
  properties claimed of the program are stated against the contract, or are
  tie-independent.
* numeric(p, s) columns reject assignments whose integer part exceeds p - s
  digits (numeric field overflow); in-range values are stored (rounding to s
  fractional digits is not modelled - no claim depends on stored sub-digit
  precision).
* Each handler invocation receives a single `now`; the row-store applies
  each update as one atomic step (one pure function on the DB value).
-/

namespace TaskTracker

/-- Milliseconds since epoch, as produced by JS Date.now(). -/
abbrev Millis := Nat

/-- Row of the vendors table (shared/schema.ts). -/
structure Vendor where
  id : Nat
  userId : Nat
  businessName : String
  address : String
  description : Option String
  isVerified : Bool
deriving Repr, DecidableEq

/-- Row of the delivery_partners table (shared/schema.ts). -/
structure DeliveryPartner where
  id : Nat
  userId : Nat
  vehicleType : String
  licenseNumber : Option String
  rating : String
  totalDeliveries : Nat
  isOnline : Bool
  currentLatitude : Option Rat
  currentLongitude : Option Rat
  lastLocationUpdate : Option Millis
deriving Repr, DecidableEq

/-- Row of the orders table (shared/schema.ts).  The four nullable display
coordinate columns (delivery/pickup latitude/longitude) are elided: no server
operation reads or writes them. -/
structure Order where
  id : Nat
  orderNumber : String
  customerId : Nat
  vendorId : Nat
  deliveryPartnerId : Option Nat
  customerName : String
  customerPhone : String
  deliveryAddress : String
  pickupAddress : String
  orderTotal : String
  status : String
  estimatedDeliveryTime : Option Millis
  actualDeliveryTime : Option Millis
  createdAt : Millis
  updatedAt : Millis
deriving Repr, DecidableEq

/-- Row of the location_updates table (shared/schema.ts). -/
structure LocationUpdate where
  id : Nat
  deliveryPartnerId : Nat
  orderId : Option Nat
  latitude : Rat
  longitude : Rat
  timestamp : Millis
deriving Repr, DecidableEq

/-- The relational store, as the row-store collaborator sees it.  The users
table is omitted: credential resolution is the external Session Authenticator
collaborator, and handlers receive its resolved context directly.  The serial
counters model the SERIAL primary-key sequences. -/
structure DB where
  vendors : List Vendor
  deliveryPartners : List DeliveryPartner
  orders : List Order
  locationUpdates : List LocationUpdate
  nextOrderId : Nat
  nextLocationUpdateId : Nat
deriving Repr, DecidableEq

/-! ## Storage layer (DatabaseStorage) -/

/-- DatabaseStorage.getOrder: SELECT from orders WHERE id, first row. -/
def getOrder (db : DB) (id : Nat) : Option Order :=
  (db.orders.filter (fun o => o.id == id)).head?

/-- DatabaseStorage.getVendor. -/
def getVendor (db : DB) (id : Nat) : Option Vendor :=
  (db.vendors.filter (fun v => v.id == id)).head?

/-- DatabaseStorage.getDeliveryPartner. -/
def getDeliveryPartner (db : DB) (id : Nat) : Option DeliveryPartner :=
  (db.deliveryPartners.filter (fun p => p.id == id)).head?

/-- DatabaseStorage.getDeliveryPartnerByUserId. -/
def getDeliveryPartnerByUserId (db : DB) (userId : Nat) : Option DeliveryPartner :=
  (db.deliveryPartners.filter (fun p => p.userId == userId)).head?

/-- Fits the latitude columns current_latitude / latitude, declared
numeric(10,8) in shared/schema.ts: two integer digits, so |x| < 100. -/
def latColumnOk (x : Rat) : Bool :=
  decide (-100 < x) && decide (x < 100)

/-- Fits the longitude columns current_longitude / longitude, declared
numeric(11,8) in shared/schema.ts: three integer digits, so |x| < 1000. -/
def lonColumnOk (x : Rat) : Bool :=
  decide (-1000 < x) && decide (x < 1000)

/-- DatabaseStorage.updateDeliveryPartnerLocation: UPDATE delivery_partners
SET current position and last update time WHERE id = partnerId.  The
current_latitude / current_longitude columns are numeric(10,8) and
numeric(11,8), so the row-store raises numeric field overflow - surfacing as
a thrown error - for coordinates outside those column bounds; nothing is
written then. -/
def updateDeliveryPartnerLocation (db : DB) (now : Millis) (partnerId : Nat)
    (latitude longitude : Rat) : Except String DB :=
  if latColumnOk latitude && lonColumnOk longitude then
    Except.ok { db with deliveryPartners := db.deliveryPartners.map fun p =>
      if p.id == partnerId then
        { p with currentLatitude := some latitude, currentLongitude := some longitude,
                 lastLocationUpdate := some now }
      else p }
  else Except.error "numeric field overflow"

/-- DatabaseStorage.updateDeliveryPartnerStatus: UPDATE delivery_partners
SET is_online WHERE id = partnerId. -/
def updateDeliveryPartnerStatus (db : DB) (partnerId : Nat) (isOnline : Bool) : DB :=
  { db with deliveryPartners := db.deliveryPartners.map fun p =>
      if p.id == partnerId then { p with isOnline := isOnline } else p }

/-- Insert shape accepted by DatabaseStorage.createOrder (insertOrderSchema:
the orders columns minus id, orderNumber, createdAt, updatedAt; status is
optional because the column carries DEFAULT 'pending'). -/
structure InsertOrder where
  customerId : Nat
  vendorId : Nat
  deliveryPartnerId : Option Nat
  customerName : String
  customerPhone : String
  deliveryAddress : String
  pickupAddress : String
  orderTotal : String
  status : Option String
  estimatedDeliveryTime : Option Millis
  actualDeliveryTime : Option Millis
deriving Repr, DecidableEq

/-- DatabaseStorage.createOrder: generates orderNumber = "ORD-" + Date.now()
and inserts the row with updatedAt = now, createdAt = DEFAULT now.
The order_number column is declared .notNull().unique() in shared/schema.ts,
so the row-store rejects an insert whose generated number collides with an
existing row; the thrown unique violation surfaces as an error result. -/
def createOrder (db : DB) (now : Millis) (ins : InsertOrder) : Except String (Order × DB) :=
  let orderNumber := "ORD-" ++ toString now
  if db.orders.any (fun o => o.orderNumber == orderNumber) then
    Except.error "unique_violation: orders.order_number"
  else
    let o : Order :=
      { id := db.nextOrderId
        orderNumber := orderNumber
        customerId := ins.customerId
        vendorId := ins.vendorId
        deliveryPartnerId := ins.deliveryPartnerId
        customerName := ins.customerName
        customerPhone := ins.customerPhone
        deliveryAddress := ins.deliveryAddress
        pickupAddress := ins.pickupAddress
        orderTotal := ins.orderTotal
        status := ins.status.getD "pending"
        estimatedDeliveryTime := ins.estimatedDeliveryTime
        actualDeliveryTime := ins.actualDeliveryTime
        createdAt := now
        updatedAt := now }
    Except.ok (o, { db with orders := db.orders ++ [o], nextOrderId := db.nextOrderId + 1 })

/-- DatabaseStorage.updateOrderStatus: builds one update payload
{status, updatedAt, and - when status is 'delivered' - actualDeliveryTime}
and applies it in a single UPDATE orders ... WHERE id = orderId.
No condition on the current status is present in the WHERE clause and no
transition validation is performed. -/
def updateOrderStatus (db : DB) (now : Millis) (orderId : Nat) (status : String) : DB :=
  { db with orders := db.orders.map fun o =>
      if o.id == orderId then
        { o with status := status, updatedAt := now,
                 actualDeliveryTime :=
                   if status == "delivered" then some now else o.actualDeliveryTime }
      else o }

/-- DatabaseStorage.assignDeliveryPartner: single UPDATE orders SET
delivery_partner_id, status = 'assigned', estimated_delivery_time = now + 30min
WHERE id = orderId.  The WHERE clause is keyed on the id only - it carries no
condition on the current status. -/
def assignDeliveryPartner (db : DB) (now : Millis) (orderId partnerId : Nat) : DB :=
  { db with orders := db.orders.map fun o =>
      if o.id == orderId then
        { o with deliveryPartnerId := some partnerId, status := "assigned",
                 estimatedDeliveryTime := some (now + 30 * 60 * 1000), updatedAt := now }
      else o }

/-- Insert shape accepted by DatabaseStorage.createLocationUpdate
(insertLocationUpdateSchema: columns minus id and timestamp; the timestamp
column carries DEFAULT now()). -/
structure InsertLocationUpdate where
  deliveryPartnerId : Nat
  orderId : Option Nat
  latitude : Rat
  longitude : Rat
deriving Repr, DecidableEq

/-- DatabaseStorage.createLocationUpdate: INSERT into location_updates,
returning the new row; the timestamp defaults to now.  The latitude /
longitude columns are numeric(10,8) and numeric(11,8), so an out-of-bound
coordinate raises numeric field overflow and nothing is inserted. -/
def createLocationUpdate (db : DB) (now : Millis) (ins : InsertLocationUpdate) :
    Except String (LocationUpdate × DB) :=
  if latColumnOk ins.latitude && lonColumnOk ins.longitude then
    let u : LocationUpdate :=
      { id := db.nextLocationUpdateId
        deliveryPartnerId := ins.deliveryPartnerId
        orderId := ins.orderId
        latitude := ins.latitude
        longitude := ins.longitude
        timestamp := now }
    Except.ok (u, { db with locationUpdates := db.locationUpdates ++ [u],
                            nextLocationUpdateId := db.nextLocationUpdateId + 1 })
  else Except.error "numeric field overflow"

/-- ORDER BY timestamp DESC: row a may precede row b when b's timestamp is
at most a's. -/
def tsDescOrder (a b : LocationUpdate) : Prop := b.timestamp ≤ a.timestamp

instance : DecidableRel tsDescOrder := fun a b => Nat.decLe b.timestamp a.timestamp

instance : IsTotal LocationUpdate tsDescOrder :=
  ⟨fun a b => Nat.le_total b.timestamp a.timestamp⟩

instance : IsTrans LocationUpdate tsDescOrder :=
  ⟨fun _ _ _ h h' => Nat.le_trans h' h⟩

/-- DatabaseStorage.getLatestLocationForPartner: SELECT WHERE partner id
ORDER BY timestamp DESC LIMIT 1.  The stable insertion sort is one legal
refinement of ORDER BY; the contract the row-store actually gives this query
is legalLatestResult below (no tie order is fixed). -/
def getLatestLocationForPartner (db : DB) (partnerId : Nat) : Option LocationUpdate :=
  (List.insertionSort tsDescOrder
    (db.locationUpdates.filter (fun u => u.deliveryPartnerId == partnerId))).head?

/-- JS truthiness of a number-or-undefined value: undefined and 0 are falsy.
Used where the source branches with a bare if on an optional numeric id. -/
def jsTruthyNum : Option Nat → Bool
  | some n => n != 0
  | none => false

/-- DatabaseStorage.getLocationHistory: the partner condition always applies;
the orderId condition is pushed only when the bare-truthiness test
if (orderId) passes, so both an absent orderId and orderId = 0 leave the
result unfiltered by order.  ORDER BY timestamp DESC, refined here by the
same stable insertion sort; the row-store's contract for this query is
legalHistoryResult below. -/
def getLocationHistory (db : DB) (partnerId : Nat) (orderId : Option Nat) :
    List LocationUpdate :=
  List.insertionSort tsDescOrder
    (db.locationUpdates.filter (fun u =>
      u.deliveryPartnerId == partnerId &&
      (if jsTruthyNum orderId then u.orderId == orderId else true)))

/-- Strict descending-timestamp order. -/
def tsStrictDescOrder (a b : LocationUpdate) : Prop := b.timestamp < a.timestamp

instance : IsAntisymm LocationUpdate tsStrictDescOrder :=
  ⟨fun _ _ h h' => absurd h' (Nat.lt_asymm h)⟩

/-- What ORDER BY timestamp DESC guarantees of a query result: some
permutation of the selected rows that is non-increasing in timestamp.  The
relative order of rows with equal timestamps is unspecified, and independent
between different queries. -/
def legalOrderByTsDesc (selected result : List LocationUpdate) : Prop :=
  result.Perm selected ∧ result.Pairwise tsDescOrder

/-- A result the row-store may legally return for the
getLatestLocationForPartner query (ORDER BY timestamp DESC LIMIT 1 over the
partner's samples). -/
def legalLatestResult (db : DB) (partnerId : Nat) (r : Option LocationUpdate) : Prop :=
  ∃ out, legalOrderByTsDesc
      (db.locationUpdates.filter (fun u => u.deliveryPartnerId == partnerId)) out ∧
    r = out.head?

/-- A result the row-store may legally return for the getLocationHistory
query (same selection as getLocationHistory, any legal ORDER BY outcome). -/
def legalHistoryResult (db : DB) (partnerId : Nat) (orderId : Option Nat)
    (r : List LocationUpdate) : Prop :=
  legalOrderByTsDesc
    (db.locationUpdates.filter (fun u =>
      u.deliveryPartnerId == partnerId &&
      (if jsTruthyNum orderId then u.orderId == orderId else true))) r

/-! ## Request and connection contexts -/

/-- The resolved HTTP request context attached by the authenticateToken
middleware: id/username/role always, plus the vendor profile id when the role
is vendor and a profile exists, or the partner profile id when the role is
delivery and a profile exists. -/
structure AuthUser where
  id : Nat
  username : String
  role : String
  vendorId : Option Nat
  deliveryPartnerId : Option Nat
deriving Repr, DecidableEq

/-- The context the Socket.IO auth middleware stores in socket.data.user.
It contains only id, username and role: unlike the HTTP middleware, it never
attaches vendorId or deliveryPartnerId, so reading those properties on it
yields undefined. -/
structure SocketUser where
  id : Nat
  username : String
  role : String
deriving Repr, DecidableEq

/-- JS strict equality between a number-or-null and a number-or-undefined
operand: two numbers compare by value; any comparison involving null or
undefined (including null === undefined) is false. -/
def strictEqNumOpt : Option Nat → Option Nat → Bool
  | some a, some b => a == b
  | _, _ => false

/-- updateOrderStatusSchema (zod): the status payload must be one of the six
enum literals, otherwise parse throws. -/
def updateOrderStatusSchemaAccepts (status : String) : Bool :=
  ["pending", "assigned", "picked_up", "in_transit", "delivered", "cancelled"].contains status

/-- updateLocationSchema (zod): latitude in [-90, 90], longitude in
[-180, 180]. -/
def updateLocationSchemaAccepts (latitude longitude : Rat) : Bool :=
  decide (-90 ≤ latitude) && decide (latitude ≤ 90) &&
  decide (-180 ≤ longitude) && decide (longitude ≤ 180)

/-- The permission check of the PATCH /api/orders/:id/status handler:
a vendor may update when order.vendorId === req.user.vendorId, a delivery
partner when order.deliveryPartnerId === req.user.deliveryPartnerId
(JS strict equality on possibly-absent operands). -/
def canUpdateOrderStatus (user : AuthUser) (o : Order) : Bool :=
  (user.role == "vendor" && strictEqNumOpt (some o.vendorId) user.vendorId) ||
  (user.role == "delivery" && strictEqNumOpt o.deliveryPartnerId user.deliveryPartnerId)

/-! ## HTTP handlers -/

/-- PATCH /api/orders/:id/status.  Parses the body with
updateOrderStatusSchema (throwing to a 400), loads the order (404 when
absent), checks the relation (403), then persists via updateOrderStatus and
answers 200.  Result: (HTTP status code, resulting DB). -/
def patchOrderStatus (db : DB) (now : Millis) (user : AuthUser) (orderId : Nat)
    (requestedStatus : String) : Nat × DB :=
  if updateOrderStatusSchemaAccepts requestedStatus = false then (400, db)
  else
    match getOrder db orderId with
    | none => (404, db)
    | some order =>
      if canUpdateOrderStatus user order = false then (403, db)
      else (200, updateOrderStatus db now orderId requestedStatus)

/-- PATCH /api/orders/:id/assign.  Guarded by requireRole(['vendor']); loads
the order (404 when absent), rejects a non-owning vendor (403), rejects a
missing or offline partner (400), then persists via assignDeliveryPartner
and answers 200.  No check of the order's current status is performed. -/
def patchOrderAssign (db : DB) (now : Millis) (user : AuthUser) (orderId : Nat)
    (deliveryPartnerId : Nat) : Nat × DB :=
  if (user.role == "vendor") = false then (403, db)
  else
    match getOrder db orderId with
    | none => (404, db)
    | some order =>
      if strictEqNumOpt (some order.vendorId) user.vendorId = false then (403, db)
      else
        match getDeliveryPartner db deliveryPartnerId with
        | none => (400, db)
        | some partner =>
          if partner.isOnline = false then (400, db)
          else (200, assignDeliveryPartner db now orderId deliveryPartnerId)

/-- POST /api/location/update.  Guarded by requireRole(['delivery']); parses
the body with updateLocationSchema (throwing to a 400), rejects a request
context without a partner profile (400), then updates the partner's current
position and appends a history row.  A thrown row-store error is caught and
answered 400, leaving whatever had been written so far in place (each await
is its own statement; there is no transaction). -/
def postLocationUpdate (db : DB) (now : Millis) (user : AuthUser)
    (latitude longitude : Rat) (orderId : Option Nat) : Nat × DB :=
  if (user.role == "delivery") = false then (403, db)
  else if updateLocationSchemaAccepts latitude longitude = false then (400, db)
  else
    match user.deliveryPartnerId with
    | none => (400, db)
    | some pid =>
      match updateDeliveryPartnerLocation db now pid latitude longitude with
      | Except.error _ => (400, db)
      | Except.ok db1 =>
        match createLocationUpdate db1 now
            { deliveryPartnerId := pid, orderId := orderId,
              latitude := latitude, longitude := longitude } with
        | Except.error _ => (400, db1)
        | Except.ok (_, db2) => (200, db2)

/-! ## Socket.IO handlers -/

/-- One outbound Socket.IO effect.  Room broadcasts carry the target room
name; acknowledgments are emitted on the originating connection only
(socket.emit), which the constructors record structurally. -/
inductive Emission where
  | deliveryLocationUpdate (room : String) (orderId : Nat)
      (latitude longitude : Rat) (timestamp : Millis)
  | orderStatusChanged (room : String) (orderId : Nat) (status : String)
      (timestamp : Millis)
  | ackOk (event : String)
  | ackError (event : String) (message : String)
deriving Repr, DecidableEq

/-- The per-account identity room joined at connection time. -/
def userRoom (userId : Nat) : String := "user_" ++ toString userId

/-- The permission check of the socket order_status_update handler.  It reads
user.vendorId and user.deliveryPartnerId from socket.data.user, but the
socket auth middleware stores only {id, username, role} there, so both reads
evaluate to undefined (none). -/
def canUpdateOrderStatusSocket (user : SocketUser) (o : Order) : Bool :=
  (user.role == "vendor" && strictEqNumOpt (some o.vendorId) none) ||
  (user.role == "delivery" && strictEqNumOpt o.deliveryPartnerId none)

/-- Socket order_status_update handler.  A missing order or a failed
permission check returns silently (no acknowledgment).  On the update path it
persists the status, broadcasts order_status_changed to the customer's
identity room, the vendor account's identity room and - when the order has an
assigned partner - the partner account's identity room, then acknowledges
success to the originating connection.  Result: (resulting DB, emissions in
order). -/
def socketOrderStatusUpdate (db : DB) (now : Millis) (user : SocketUser)
    (orderId : Nat) (status : String) : DB × List Emission :=
  match getOrder db orderId with
  | none => (db, [])
  | some order =>
    if canUpdateOrderStatusSocket user order = false then (db, [])
    else
      let db1 := updateOrderStatus db now orderId status
      let customerEmit :=
        [Emission.orderStatusChanged (userRoom order.customerId) orderId status now]
      let vendorEmit :=
        match getVendor db1 order.vendorId with
        | some v => [Emission.orderStatusChanged (userRoom v.userId) orderId status now]
        | none => []
      let partnerEmit :=
        match order.deliveryPartnerId with
        | some pid =>
          match getDeliveryPartner db1 pid with
          | some p => [Emission.orderStatusChanged (userRoom p.userId) orderId status now]
          | none => []
        | none => []
      (db1, customerEmit ++ vendorEmit ++ partnerEmit ++
            [Emission.ackOk "order_status_update_success"])

/-- Socket location_update handler.  The listener is registered only for
connections whose role is delivery; a connection without a partner profile
returns silently.  No schema validation is applied to the event payload: the
raw latitude/longitude are persisted as sent whenever they fit the numeric
column bounds; a coordinate beyond the column bounds makes the row-store
throw, which the catch turns into a location_update_error acknowledgment
with nothing further written.  When the bare-truthiness test if (orderId)
passes and the order exists, delivery_location_update is broadcast to the
customer's identity room and the vendor account's identity room; success is
then acknowledged to the originating connection. -/
def socketLocationUpdate (db : DB) (now : Millis) (user : SocketUser)
    (latitude longitude : Rat) (orderId : Option Nat) : DB × List Emission :=
  if (user.role == "delivery") = false then (db, [])
  else
    match getDeliveryPartnerByUserId db user.id with
    | none => (db, [])
    | some partner =>
      match updateDeliveryPartnerLocation db now partner.id latitude longitude with
      | Except.error _ =>
        (db, [Emission.ackError "location_update_error" "Failed to update location"])
      | Except.ok db1 =>
        match createLocationUpdate db1 now
            { deliveryPartnerId := partner.id, orderId := orderId,
              latitude := latitude, longitude := longitude } with
        | Except.error _ =>
          (db1, [Emission.ackError "location_update_error" "Failed to update location"])
        | Except.ok (_, db2) =>
          let broadcasts :=
            if jsTruthyNum orderId then
              match orderId with
              | some oid =>
                (match getOrder db2 oid with
                 | some order =>
                   [Emission.deliveryLocationUpdate (userRoom order.customerId) oid
                      latitude longitude now] ++
                   (match getVendor db2 order.vendorId with
                    | some v => [Emission.deliveryLocationUpdate (userRoom v.userId) oid
                        latitude longitude now]
                    | none => [])
                 | none => [])
              | none => []
            else []
          (db2, broadcasts ++ [Emission.ackOk "location_update_success"])

/-! ## Concrete fixtures for witnesses and counterexamples -/

/-- A vendor profile owned by account 10. -/
def vendorA : Vendor :=
  { id := 1, userId := 10, businessName := "A Foods", address := "1 Main St",
    description := none, isVerified := true }

/-- An online delivery partner owned by account 30. -/
def partnerA : DeliveryPartner :=
  { id := 1, userId := 30, vehicleType := "motorcycle", licenseNumber := none,
    rating := "0.00", totalDeliveries := 0, isOnline := true,
    currentLatitude := none, currentLongitude := none, lastLocationUpdate := none }

/-- A second online delivery partner owned by account 31. -/
def partnerB : DeliveryPartner :=
  { partnerA with id := 2, userId := 31 }

/-- The resolved HTTP context of vendor account 10 (profile vendorA). -/
def authVendorA : AuthUser :=
  { id := 10, username := "vend", role := "vendor",
    vendorId := some 1, deliveryPartnerId := none }

/-- A pending order of vendorA for customer account 20. -/
def orderPending : Order :=
  { id := 1, orderNumber := "ORD-1", customerId := 20, vendorId := 1,
    deliveryPartnerId := none, customerName := "Cust", customerPhone := "555",
    deliveryAddress := "2 Oak St", pickupAddress := "1 Main St",
    orderTotal := "10.00", status := "pending", estimatedDeliveryTime := none,
    actualDeliveryTime := none, createdAt := 0, updatedAt := 0 }

/-- The same order after delivery completed at time 500. -/
def orderDelivered : Order :=
  { orderPending with
    status := "delivered"
    deliveryPartnerId := some 1
    actualDeliveryTime := some 500
    updatedAt := 500 }

/-- The pending order already assigned to partnerA. -/
def orderAssignedToA : Order :=
  { orderPending with status := "assigned", deliveryPartnerId := some 1 }

/-- Store holding the delivered order of vendorA and the online partnerA. -/
def dbDelivered : DB :=
  { vendors := [vendorA], deliveryPartners := [partnerA],
    orders := [orderDelivered], locationUpdates := [],
    nextOrderId := 2, nextLocationUpdateId := 1 }

/-- Store holding the pending order of vendorA and two online partners. -/
def dbPending : DB :=
  { vendors := [vendorA], deliveryPartners := [partnerA, partnerB],
    orders := [orderPending], locationUpdates := [],
    nextOrderId := 2, nextLocationUpdateId := 1 }

/-- Store holding the order assigned to partnerA. -/
def dbAssigned : DB :=
  { vendors := [vendorA], deliveryPartners := [partnerA],
    orders := [orderAssignedToA], locationUpdates := [],
    nextOrderId := 2, nextLocationUpdateId := 1 }

/-- Store holding only the online partnerA - no orders, no samples. -/
def dbPartnerOnly : DB :=
  { vendors := [], deliveryPartners := [partnerA], orders := [],
    locationUpdates := [], nextOrderId := 1, nextLocationUpdateId := 1 }

/-- The socket connection context of partnerA's account (delivery role):
exactly the three fields the socket auth middleware stores. -/
def socketPartnerA : SocketUser :=
  { id := 30, username := "part", role := "delivery" }

/-- The resolved HTTP context of partnerA's account (delivery role with the
partner profile id attached by the HTTP middleware). -/
def authPartnerA : AuthUser :=
  { id := 30, username := "part", role := "delivery",
    vendorId := none, deliveryPartnerId := some 1 }

/-- An offline third delivery partner owned by account 32. -/
def partnerOffline : DeliveryPartner :=
  { partnerA with id := 3, userId := 32, isOnline := false }

/-- The pending-order store extended with the offline partner. -/
def dbPendingOffline : DB :=
  { dbPending with deliveryPartners := [partnerA, partnerB, partnerOffline] }

/-- Pairwise distinctness of the stored order numbers. -/
def uniqueOrderNumbers (db : DB) : Prop :=
  db.orders.Pairwise (fun a b => a.orderNumber ≠ b.orderNumber)

/-- Insert payload for a fresh order of vendorA for customer account 20. -/
def insOrderA : InsertOrder :=
  { customerId := 20, vendorId := 1, deliveryPartnerId := none, customerName := "Cust",
    customerPhone := "555", deliveryAddress := "2 Oak St", pickupAddress := "1 Main St",
    orderTotal := "10.00", status := none, estimatedDeliveryTime := none,
    actualDeliveryTime := none }

/-- The row createOrder stores for insOrderA at time 1234 on dbPartnerOnly. -/
def orderCreatedW : Order :=
  { id := 1, orderNumber := "ORD-1234", customerId := 20, vendorId := 1,
    deliveryPartnerId := none, customerName := "Cust", customerPhone := "555",
    deliveryAddress := "2 Oak St", pickupAddress := "1 Main St", orderTotal := "10.00",
    status := "pending", estimatedDeliveryTime := none, actualDeliveryTime := none,
    createdAt := 1234, updatedAt := 1234 }

/-- The store after that creation. -/
def dbCreatedW : DB :=
  { dbPartnerOnly with orders := [orderCreatedW], nextOrderId := 2 }

/-- The row left by delivering order 1 of dbAssigned at time 4000. -/
def orderDeliveredW : Order :=
  { orderAssignedToA with
    status := "delivered"
    updatedAt := 4000
    actualDeliveryTime := some 4000 }

/-- A sample of partnerA tagged with order 1 at timestamp 10. -/
def sampleT1 : LocationUpdate :=
  { id := 1, deliveryPartnerId := 1, orderId := some 1, latitude := 1, longitude := 2,
    timestamp := 10 }

/-- A second sample of partnerA tagged with order 1, same timestamp 10. -/
def sampleT2 : LocationUpdate :=
  { id := 2, deliveryPartnerId := 1, orderId := some 1, latitude := 3, longitude := 4,
    timestamp := 10 }

/-- Store holding partnerA, the pending order and the two samples. -/
def dbSamples : DB :=
  { vendors := [], deliveryPartners := [partnerA], orders := [orderPending],
    locationUpdates := [sampleT1, sampleT2], nextOrderId := 2, nextLocationUpdateId := 3 }

/-- A third sample of partnerA at the later timestamp 20. -/
def sampleT3 : LocationUpdate :=
  { id := 3, deliveryPartnerId := 1, orderId := some 1, latitude := 5, longitude := 6,
    timestamp := 20 }

/-- A store whose samples carry pairwise distinct timestamps. -/
def dbSamplesDistinct : DB :=
  { dbSamples with locationUpdates := [sampleT1, sampleT3], nextLocationUpdateId := 4 }

/-! ## Helper lemmas -/

/-- JS strict comparison with an undefined right operand is always false. -/
theorem strictEqNumOpt_none_right (x : Option Nat) : strictEqNumOpt x none = false := by
  cases x <;> rfl

theorem strictEqNumOpt_some_self (a : Nat) : strictEqNumOpt (some a) (some a) = true := by
  simp [strictEqNumOpt]

/-- An order returned by getOrder is a stored row carrying the queried id. -/
theorem getOrder_mem_and_id {db : DB} {oid : Nat} {o : Order}
    (h : getOrder db oid = some o) : o ∈ db.orders ∧ o.id = oid := by
  unfold getOrder at h
  have hm : o ∈ db.orders.filter (fun x => x.id == oid) :=
    List.mem_of_mem_head? (by simp [h])
  have := List.mem_filter.mp hm
  exact ⟨this.1, by simpa using this.2⟩

/-- head? of an id-keyed filter commutes with an id-preserving row rewrite. -/
theorem head_filter_map {f : Order → Order} (hf : ∀ o, (f o).id = o.id) (qid : Nat)
    (l : List Order) :
    ((l.map f).filter (fun o => o.id == qid)).head? =
      ((l.filter (fun o => o.id == qid)).head?).map f := by
  induction l with
  | nil => rfl
  | cons o l ih =>
    simp only [List.map_cons, List.filter_cons, hf o]
    by_cases h : (o.id == qid) = true
    · simp [h]
    · simp [h, ih]

/-! ## C1 - order status transition discipline -/

/-- C1 counterexample: the claimed transition-edge restriction does not hold.
At a concrete store holding a delivered order, the owning vendor's PATCH
/api/orders/:id/status request with status "pending" is answered 200 and the
order's status is rewritten to "pending" - an edge out of a terminal state,
outside the claimed edge set, and a successful update from status delivered. -/
theorem patchStatus_delivered_to_pending_succeeds :
    (patchOrderStatus dbDelivered 1000 authVendorA 1 "pending").1 = 200 ∧
    ((getOrder (patchOrderStatus dbDelivered 1000 authVendorA 1 "pending").2 1).map
        Order.status) = some "pending" ∧
    orderDelivered.status = "delivered" := by decide

/-- C1 (amended): no transition-edge validation exists.  A status update is
denied only for an unparseable status (400), a missing order (404) or a
failed vendor/assigned-partner relation check (403), each leaving the store
untouched; whenever the actor passes the relation check and the status is one
of the six enum literals, the update succeeds (200) regardless of the current
status - including from the terminal statuses delivered and cancelled - and
rewrites exactly the rows carrying the order id. -/
theorem patchOrderStatus_no_transition_guard (db : DB) (now : Millis) (user : AuthUser)
    (oid : Nat) (st : String) :
    (updateOrderStatusSchemaAccepts st = false →
        patchOrderStatus db now user oid st = (400, db)) ∧
    (updateOrderStatusSchemaAccepts st = true → getOrder db oid = none →
        patchOrderStatus db now user oid st = (404, db)) ∧
    (∀ o, updateOrderStatusSchemaAccepts st = true → getOrder db oid = some o →
      (canUpdateOrderStatus user o = false →
          patchOrderStatus db now user oid st = (403, db)) ∧
      (canUpdateOrderStatus user o = true →
          (patchOrderStatus db now user oid st).1 = 200 ∧
          ∀ o' ∈ (patchOrderStatus db now user oid st).2.orders,
            (o'.id = oid → o'.status = st ∧ o'.updatedAt = now) ∧
            (o'.id ≠ oid → o' ∈ db.orders))) := by
  refine ⟨fun h => by simp [patchOrderStatus, h],
          fun hs hn => by simp [patchOrderStatus, hs, hn], ?_⟩
  intro o hs ho
  constructor
  · intro hc
    simp [patchOrderStatus, hs, ho, hc]
  · intro hc
    have hres : patchOrderStatus db now user oid st = (200, updateOrderStatus db now oid st) := by
      simp [patchOrderStatus, hs, ho, hc]
    rw [hres]
    refine ⟨rfl, ?_⟩
    intro o' ho'
    simp only [updateOrderStatus] at ho'
    rcases List.mem_map.mp ho' with ⟨a, ha, rfl⟩
    by_cases hid : (a.id == oid) = true
    · have haid : a.id = oid := by simpa using hid
      refine ⟨fun _ => ?_, fun hne => ?_⟩
      · simp [hid]
      · exact absurd (by simpa [hid] using haid) hne
    · have haid : a.id ≠ oid := by simpa using hid
      refine ⟨fun heq => ?_, fun _ => ?_⟩
      · exact absurd (by simpa [hid] using heq) haid
      · simpa [hid] using ha

/-- C1 witness: the amended theorem applied at the delivered-order store:
vendorA's update of order 1 to "picked_up" is answered 200. -/
theorem patchOrderStatus_no_transition_guard_witness :
    (patchOrderStatus dbDelivered 2000 authVendorA 1 "picked_up").1 = 200 :=
  (((patchOrderStatus_no_transition_guard dbDelivered 2000 authVendorA 1
      "picked_up").2.2 orderDelivered (by decide) (by decide)).2 (by decide)).1

/-- getOrder after assignDeliveryPartner: the id-preserving row rewrite
commutes with the id-keyed lookup. -/
theorem getOrder_assignDeliveryPartner (db : DB) (now : Millis) (oid pid qid : Nat) :
    getOrder (assignDeliveryPartner db now oid pid) qid =
      (getOrder db qid).map (fun o =>
        if o.id == oid then
          { o with deliveryPartnerId := some pid, status := "assigned",
                   estimatedDeliveryTime := some (now + 30 * 60 * 1000), updatedAt := now }
        else o) := by
  unfold getOrder assignDeliveryPartner
  exact head_filter_map (fun o => by by_cases h : (o.id == oid) = true <;> simp [h]) qid db.orders

/-! ## C2 - assignment race safety -/

/-- C2 counterexample: one legal schedule of two racing assign calls against
the same pending order is back-to-back execution; there both calls are
answered 200 - the loser is not told Conflict - and the second write rewrites
a row whose status was already "assigned", so the write is not conditioned on
the status still being pending at write time. -/
theorem assign_race_both_succeed :
    orderPending.status = "pending" ∧
    (patchOrderAssign dbPending 1000 authVendorA 1 1).1 = 200 ∧
    ((getOrder (patchOrderAssign dbPending 1000 authVendorA 1 1).2 1).map Order.status)
      = some "assigned" ∧
    (patchOrderAssign (patchOrderAssign dbPending 1000 authVendorA 1 1).2
        2000 authVendorA 1 2).1 = 200 ∧
    ((getOrder (patchOrderAssign (patchOrderAssign dbPending 1000 authVendorA 1 1).2
        2000 authVendorA 1 2).2 1).map Order.deliveryPartnerId) = some (some 2) := by decide

/-- C2 (amended): the assignment write is a single update keyed on the order
id alone - no status condition.  Hence two assign calls against the same
order by its vendor, each naming an online partner, both succeed whatever the
order's status: the first and the second are both answered 200, and after the
second the row carries the second partner id (last write wins).  No Conflict
result exists on this path. -/
theorem assign_write_unconditional (db : DB) (t1 t2 : Millis) (user : AuthUser)
    (oid pid1 pid2 : Nat) (o : Order) (p1 p2 : DeliveryPartner)
    (hrole : user.role = "vendor") (ho : getOrder db oid = some o)
    (hv : user.vendorId = some o.vendorId)
    (hp1 : getDeliveryPartner db pid1 = some p1) (h1on : p1.isOnline = true)
    (hp2 : getDeliveryPartner db pid2 = some p2) (h2on : p2.isOnline = true) :
    (patchOrderAssign db t1 user oid pid1).1 = 200 ∧
    (patchOrderAssign (patchOrderAssign db t1 user oid pid1).2 t2 user oid pid2).1 = 200 ∧
    ∀ o' ∈ (patchOrderAssign (patchOrderAssign db t1 user oid pid1).2
        t2 user oid pid2).2.orders,
      o'.id = oid → o'.status = "assigned" ∧ o'.deliveryPartnerId = some pid2 := by
  have hoid : o.id = oid := (getOrder_mem_and_id ho).2
  have hr1 : patchOrderAssign db t1 user oid pid1 = (200, assignDeliveryPartner db t1 oid pid1) := by
    simp [patchOrderAssign, hrole, ho, hv, strictEqNumOpt, hp1, h1on]
  have ho1 : getOrder (assignDeliveryPartner db t1 oid pid1) oid =
      some { o with deliveryPartnerId := some pid1, status := "assigned",
                    estimatedDeliveryTime := some (t1 + 30 * 60 * 1000), updatedAt := t1 } := by
    rw [getOrder_assignDeliveryPartner, ho]
    simp [hoid]
  have hp2' : getDeliveryPartner (assignDeliveryPartner db t1 oid pid1) pid2 = some p2 := hp2
  have hr2 : patchOrderAssign (assignDeliveryPartner db t1 oid pid1) t2 user oid pid2 =
      (200, assignDeliveryPartner (assignDeliveryPartner db t1 oid pid1) t2 oid pid2) := by
    simp [patchOrderAssign, hrole, ho1, hv, strictEqNumOpt, hp2', h2on]
  refine ⟨by rw [hr1], by rw [hr1, hr2], ?_⟩
  rw [hr1, hr2]
  intro o' ho' hid
  simp only [assignDeliveryPartner] at ho'
  rcases List.mem_map.mp ho' with ⟨a, _, rfl⟩
  by_cases h : (a.id == oid) = true
  · simp [h]
  · have : a.id ≠ oid := by simpa using h
    simp only [h, if_false] at hid ⊢
    exact absurd hid this

/-- C2 witness: the amended theorem applied at the pending-order store with
partners 1 and 2: both assign calls are answered 200. -/
theorem assign_write_unconditional_witness :
    (patchOrderAssign dbPending 1000 authVendorA 1 1).1 = 200 ∧
    (patchOrderAssign (patchOrderAssign dbPending 1000 authVendorA 1 1).2
        2000 authVendorA 1 2).1 = 200 :=
  let h := assign_write_unconditional dbPending 1000 2000 authVendorA 1 1 2
    orderPending partnerA partnerB (by decide) (by decide) (by decide) (by decide)
    (by decide) (by decide) (by decide)
  ⟨h.1, h.2.1⟩

/-! ## C3 - assignment precondition errors -/

/-- C3 counterexample: an assign call against an existing owned order whose
status is not pending (here: delivered) and an online partner is answered 200
and the order is mutated to "assigned" - the claimed error-and-no-mutation
behaviour for non-pending orders does not hold. -/
theorem assign_delivered_order_succeeds :
    orderDelivered.status = "delivered" ∧
    partnerA.isOnline = true ∧
    (patchOrderAssign dbDelivered 3000 authVendorA 1 1).1 = 200 ∧
    ((getOrder (patchOrderAssign dbDelivered 3000 authVendorA 1 1).2 1).map Order.status)
      = some "assigned" := by decide

/-- C3 (amended): the error paths that do exist leave the store untouched: a
non-vendor caller (403), a missing order (404), a non-owning vendor (403), a
missing partner (400) and an offline partner (400) all return the store
unchanged.  The order-status precondition of the claim is absent: when the
caller owns the order and the partner is online, the call succeeds and
mutates the order regardless of its current status. -/
theorem assign_error_paths (db : DB) (now : Millis) (user : AuthUser) (oid pid : Nat) :
    (user.role ≠ "vendor" → patchOrderAssign db now user oid pid = (403, db)) ∧
    (user.role = "vendor" → getOrder db oid = none →
        patchOrderAssign db now user oid pid = (404, db)) ∧
    (∀ o, user.role = "vendor" → getOrder db oid = some o →
        strictEqNumOpt (some o.vendorId) user.vendorId = false →
        patchOrderAssign db now user oid pid = (403, db)) ∧
    (∀ o, user.role = "vendor" → getOrder db oid = some o →
        strictEqNumOpt (some o.vendorId) user.vendorId = true →
        getDeliveryPartner db pid = none →
        patchOrderAssign db now user oid pid = (400, db)) ∧
    (∀ o p, user.role = "vendor" → getOrder db oid = some o →
        strictEqNumOpt (some o.vendorId) user.vendorId = true →
        getDeliveryPartner db pid = some p → p.isOnline = false →
        patchOrderAssign db now user oid pid = (400, db)) ∧
    (∀ o p, user.role = "vendor" → getOrder db oid = some o →
        strictEqNumOpt (some o.vendorId) user.vendorId = true →
        getDeliveryPartner db pid = some p → p.isOnline = true →
        (patchOrderAssign db now user oid pid).1 = 200 ∧
        ∀ o' ∈ (patchOrderAssign db now user oid pid).2.orders, o'.id = oid →
          o'.status = "assigned" ∧ o'.deliveryPartnerId = some pid) := by
  refine ⟨?_, ?_, ?_, ?_, ?_, ?_⟩
  · intro h
    have hb : (user.role == "vendor") = false := by simpa using h
    simp [patchOrderAssign, hb]
  · intro hr hn
    simp [patchOrderAssign, hr, hn]
  · intro o hr ho hvf
    simp [patchOrderAssign, hr, ho, hvf]
  · intro o hr ho hvt hpn
    simp [patchOrderAssign, hr, ho, hvt, hpn]
  · intro o p hr ho hvt hp hpoff
    simp [patchOrderAssign, hr, ho, hvt, hp, hpoff]
  · intro o p hr ho hvt hp hpon
    have hres : patchOrderAssign db now user oid pid =
        (200, assignDeliveryPartner db now oid pid) := by
      simp [patchOrderAssign, hr, ho, hvt, hp, hpon]
    rw [hres]
    refine ⟨rfl, ?_⟩
    intro o' ho' hid
    simp only [assignDeliveryPartner] at ho'
    rcases List.mem_map.mp ho' with ⟨a, _, rfl⟩
    by_cases h : (a.id == oid) = true
    · simp [h]
    · have hne : a.id ≠ oid := by simpa using h
      simp only [h, if_false] at hid ⊢
      exact absurd hid hne

/-- C3 witness: the amended theorem applied at the pending-order store and the
offline partner 3: the assign call is answered 400 and the store is
unchanged. -/
theorem assign_error_paths_witness :
    patchOrderAssign dbPendingOffline 1000 authVendorA 1 3 = (400, dbPendingOffline) :=
  ((assign_error_paths dbPendingOffline 1000 authVendorA 1 3).2.2.2.2.1
    orderPending partnerOffline (by decide) (by decide) (by decide) (by decide) (by decide))

/-! ## C4 - socket status update by the assigned partner -/

/-- C4: the code contradicts the claimed behaviour.  At a concrete store
where order 1 is assigned to partnerA and the sender is partnerA's own
account over a delivery-role socket connection, the order_status_update event
is ignored outright: the store is unchanged and nothing is emitted - no
persistence, no order_status_changed broadcast, no acknowledgment.  The
permission check compares order.deliveryPartnerId against
socket.data.user.deliveryPartnerId, a field the socket auth middleware never
attaches (the HTTP middleware does), so the comparison is always against
undefined and always false. -/
theorem socketStatus_assigned_partner_ignored :
    getOrder dbAssigned 1 = some orderAssignedToA ∧
    orderAssignedToA.deliveryPartnerId = some partnerA.id ∧
    socketPartnerA.id = partnerA.userId ∧
    socketPartnerA.role = "delivery" ∧
    socketOrderStatusUpdate dbAssigned 999 socketPartnerA 1 "picked_up"
      = (dbAssigned, []) := by decide

/-! ## C8 - socket status update acknowledgment discipline -/

/-- C8 counterexample: an order_status_update naming a missing order receives
no acknowledgment at all - the handler returns silently, contradicting the
claimed exactly-one synchronous acknowledgment. -/
theorem socketStatus_missing_order_unacknowledged :
    getOrder dbPartnerOnly 42 = none ∧
    (socketOrderStatusUpdate dbPartnerOnly 5 socketPartnerA 42 "picked_up").2 = [] := by
  decide

/-- C8 (amended): the socket order_status_update handler never emits any
acknowledgment and never applies any update: a missing order and a failed
relation check both return silently, and the relation check fails for every
sender because the socket connection context carries no vendor or partner
profile id, so every inbound event leaves the store unchanged and produces no
emission.  (Any acknowledgment the handler could emit is addressed to the
originating connection only, by construction of the emission type.) -/
theorem socketOrderStatusUpdate_always_silent (db : DB) (now : Millis)
    (user : SocketUser) (oid : Nat) (st : String) :
    socketOrderStatusUpdate db now user oid st = (db, []) := by
  unfold socketOrderStatusUpdate
  cases h : getOrder db oid with
  | none => rfl
  | some o =>
    have hc : canUpdateOrderStatusSocket user o = false := by
      unfold canUpdateOrderStatusSocket
      rw [strictEqNumOpt_none_right, strictEqNumOpt_none_right]
      simp
    simp [hc]

/-! ## C5 - order number generation -/

/-- C5: every order createOrder succeeds in storing carries a non-empty order
number; the insert appends exactly that row, and - because the order_number
column is unique, so a colliding insert is rejected - pairwise distinctness of
stored order numbers is preserved.  The two order-mutating operations
(updateOrderStatus and assignDeliveryPartner) preserve every row's order
number, so the number read back for an order is identical on every subsequent
read. -/
theorem createOrder_orderNumber_unique (db : DB) (now : Millis) (ins : InsertOrder) :
    (∀ o db', createOrder db now ins = Except.ok (o, db') →
        o.orderNumber ≠ "" ∧
        db'.orders = db.orders ++ [o] ∧
        (uniqueOrderNumbers db → uniqueOrderNumbers db')) ∧
    (∀ oid st, (updateOrderStatus db now oid st).orders.map
        (fun o => (o.id, o.orderNumber)) = db.orders.map (fun o => (o.id, o.orderNumber))) ∧
    (∀ oid pid, (assignDeliveryPartner db now oid pid).orders.map
        (fun o => (o.id, o.orderNumber)) = db.orders.map (fun o => (o.id, o.orderNumber))) := by
  refine ⟨?_, ?_, ?_⟩
  · intro o db' h
    unfold createOrder at h
    by_cases hdup : (db.orders.any (fun x => x.orderNumber == "ORD-" ++ toString now)) = true
    · simp [hdup] at h
    · simp only [hdup, Bool.false_eq_true, if_false, Except.ok.injEq, Prod.mk.injEq] at h
      obtain ⟨ho, hdb⟩ := h
      subst hdb
      subst ho
      have hfresh : ∀ a ∈ db.orders, a.orderNumber ≠ "ORD-" ++ toString now := by
        intro a ha
        have := (List.any_eq_false (p := fun x => x.orderNumber == "ORD-" ++ toString now)
          (l := db.orders)).mp (by simpa using hdup) a ha
        simpa using this
      refine ⟨?_, rfl, ?_⟩
      · show "ORD-" ++ toString now ≠ ""
        intro he
        have hlen := congrArg String.length he
        rw [String.length_append] at hlen
        simp at hlen
        exact absurd hlen.1 (by decide)
      · intro huniq
        unfold uniqueOrderNumbers at huniq ⊢
        rw [List.pairwise_append]
        refine ⟨huniq, List.pairwise_singleton _ _, ?_⟩
        intro a ha b hb
        rw [List.mem_singleton] at hb
        rw [hb]
        exact hfresh a ha
  · intro oid st
    unfold updateOrderStatus
    simp only [List.map_map]
    apply List.map_congr_left
    intro a _
    by_cases h : a.id = oid <;> simp [h]
  · intro oid pid
    unfold assignDeliveryPartner
    simp only [List.map_map]
    apply List.map_congr_left
    intro a _
    by_cases h : a.id = oid <;> simp [h]

/-- C5 witness: the theorem applied to the concrete creation at time 1234. -/
theorem createOrder_orderNumber_unique_witness :
    orderCreatedW.orderNumber ≠ "" ∧
    dbCreatedW.orders = dbPartnerOnly.orders ++ [orderCreatedW] ∧
    (uniqueOrderNumbers dbPartnerOnly → uniqueOrderNumbers dbCreatedW) :=
  (createOrder_orderNumber_unique dbPartnerOnly 1234 insOrderA).1 orderCreatedW dbCreatedW
    rfl

/-! ## C9 - atomic delivery stamping -/

/-- C9: updateOrderStatus is one atomic row rewrite: every row carrying the
order id leaves it with the requested status, the refreshed updatedAt and -
exactly when the requested status is "delivered" - actualDeliveryTime set to
the same write's timestamp; for any other requested status every row's
actualDeliveryTime is unchanged.  Through the HTTP handler no intermediate
state is observable: every row of every reachable result state is either
untouched or carries the status and the delivery stamp of the same single
write. -/
theorem updateOrderStatus_stamps_delivery (db : DB) (now : Millis) (oid : Nat) (st : String) :
    (∀ o' ∈ (updateOrderStatus db now oid st).orders, o'.id = oid →
        o'.status = st ∧ o'.updatedAt = now ∧
        (st = "delivered" → o'.actualDeliveryTime = some now)) ∧
    (st ≠ "delivered" →
        (updateOrderStatus db now oid st).orders.map (fun o => (o.id, o.actualDeliveryTime))
          = db.orders.map (fun o => (o.id, o.actualDeliveryTime))) ∧
    (∀ user o', o' ∈ (patchOrderStatus db now user oid st).2.orders →
        o' ∈ db.orders ∨ (o'.status = st ∧ o'.updatedAt = now ∧
          (st = "delivered" → o'.actualDeliveryTime = some now))) := by
  have hrow : ∀ o' ∈ (updateOrderStatus db now oid st).orders,
      o' ∈ db.orders ∨ (o'.id = oid ∧ o'.status = st ∧ o'.updatedAt = now ∧
        (st = "delivered" → o'.actualDeliveryTime = some now)) := by
    intro o' ho'
    simp only [updateOrderStatus] at ho'
    rcases List.mem_map.mp ho' with ⟨a, ha, rfl⟩
    by_cases h : a.id = oid
    · exact Or.inr ⟨by simp [h], by simp [h], by simp [h], fun hst => by simp [h, hst]⟩
    · exact Or.inl (by simpa [h] using ha)
  refine ⟨?_, ?_, ?_⟩
  · intro o' ho' hid
    simp only [updateOrderStatus] at ho'
    rcases List.mem_map.mp ho' with ⟨a, _, rfl⟩
    by_cases h : a.id = oid
    · exact ⟨by simp [h], by simp [h], fun hst => by simp [h, hst]⟩
    · simp [h] at hid
  · intro hst
    unfold updateOrderStatus
    simp only [List.map_map]
    apply List.map_congr_left
    intro a _
    by_cases h : a.id = oid <;> simp [h, hst]
  · intro user o' ho'
    cases hacc : updateOrderStatusSchemaAccepts st with
    | false =>
      rw [show patchOrderStatus db now user oid st = (400, db) by
        simp [patchOrderStatus, hacc]] at ho'
      exact Or.inl ho'
    | true =>
      cases hgo : getOrder db oid with
      | none =>
        rw [show patchOrderStatus db now user oid st = (404, db) by
          simp [patchOrderStatus, hacc, hgo]] at ho'
        exact Or.inl ho'
      | some o =>
        cases hcan : canUpdateOrderStatus user o with
        | false =>
          rw [show patchOrderStatus db now user oid st = (403, db) by
            simp [patchOrderStatus, hacc, hgo, hcan]] at ho'
          exact Or.inl ho'
        | true =>
          rw [show patchOrderStatus db now user oid st =
              (200, updateOrderStatus db now oid st) by
            simp [patchOrderStatus, hacc, hgo, hcan]] at ho'
          rcases hrow o' ho' with h | h
          · exact Or.inl h
          · exact Or.inr h.2

/-- C9 witness: the theorem applied at the assigned-order store, requesting
"delivered" at time 4000: the stored row has the status and the stamp of that
one write. -/
theorem updateOrderStatus_stamps_delivery_witness :
    orderDeliveredW.status = "delivered" ∧ orderDeliveredW.updatedAt = 4000 ∧
    ("delivered" = "delivered" → orderDeliveredW.actualDeliveryTime = some 4000) :=
  (updateOrderStatus_stamps_delivery dbAssigned 4000 1 "delivered").1 orderDeliveredW
    (by decide) (by decide)

/-! ## C6 - coordinate range validation -/

/-- C6 counterexample: the socket location_update path validates nothing.  At
a concrete store, partnerA's delivery-role connection submits latitude 95 -
outside [-90, 90] but within the numeric(10,8) column bound - and the sample
is persisted as sent and success is acknowledged; no ValidationError occurs
and nothing is rejected. -/
theorem socketLocation_out_of_range_persisted :
    ((90 : Rat) < 95) ∧
    (socketLocationUpdate dbPartnerOnly 777 socketPartnerA 95 0 none).1.locationUpdates
      = [{ id := 1, deliveryPartnerId := 1, orderId := none, latitude := 95,
           longitude := 0, timestamp := 777 }] ∧
    (socketLocationUpdate dbPartnerOnly 777 socketPartnerA 95 0 none).2
      = [Emission.ackOk "location_update_success"] := by decide

/-- C6 (amended): only the HTTP path enforces the [-90, 90] x [-180, 180]
ranges.  A POST /api/location/update whose coordinates fail
updateLocationSchema is answered 400 with nothing stored, and on its success
path every stored sample is either pre-existing or within those ranges.  The
socket location_update path applies no range validation: whenever the sender
has a partner profile and the raw coordinates fit the numeric column bounds
(|lat| < 100, |lon| < 1000) they are persisted as sent - including values
outside [-90, 90] x [-180, 180]; a coordinate beyond the column bounds makes
the row-store throw, and the handler answers location_update_error with the
store unchanged. -/
theorem locationValidation_http_only (db : DB) (now : Millis) (user : AuthUser)
    (su : SocketUser) (lat lon : Rat) (oid : Option Nat) :
    (user.role = "delivery" → updateLocationSchemaAccepts lat lon = false →
        postLocationUpdate db now user lat lon oid = (400, db)) ∧
    (∀ pid, user.role = "delivery" → user.deliveryPartnerId = some pid →
        updateLocationSchemaAccepts lat lon = true →
        (postLocationUpdate db now user lat lon oid).1 = 200 ∧
        ∀ u ∈ (postLocationUpdate db now user lat lon oid).2.locationUpdates,
          u ∈ db.locationUpdates ∨
            (-90 ≤ u.latitude ∧ u.latitude ≤ 90 ∧ -180 ≤ u.longitude ∧ u.longitude ≤ 180)) ∧
    (∀ p, su.role = "delivery" → getDeliveryPartnerByUserId db su.id = some p →
        latColumnOk lat = true → lonColumnOk lon = true →
        (socketLocationUpdate db now su lat lon oid).1.locationUpdates =
          db.locationUpdates ++
            [{ id := db.nextLocationUpdateId, deliveryPartnerId := p.id, orderId := oid,
               latitude := lat, longitude := lon, timestamp := now }]) ∧
    (∀ p, su.role = "delivery" → getDeliveryPartnerByUserId db su.id = some p →
        (latColumnOk lat && lonColumnOk lon) = false →
        socketLocationUpdate db now su lat lon oid =
          (db, [Emission.ackError "location_update_error" "Failed to update location"])) := by
  refine ⟨?_, ?_, ?_, ?_⟩
  · intro hrole hacc
    simp [postLocationUpdate, hrole, hacc]
  · intro pid hrole hpid hacc
    have hranges : -90 ≤ lat ∧ lat ≤ 90 ∧ -180 ≤ lon ∧ lon ≤ 180 := by
      have h := hacc
      simp only [updateLocationSchemaAccepts, Bool.and_eq_true, decide_eq_true_eq] at h
      exact ⟨h.1.1.1, h.1.1.2, h.1.2, h.2⟩
    have hlat : latColumnOk lat = true := by
      simp only [latColumnOk, Bool.and_eq_true, decide_eq_true_eq]
      constructor
      · linarith [hranges.1]
      · linarith [hranges.2.1]
    have hlon : lonColumnOk lon = true := by
      simp only [lonColumnOk, Bool.and_eq_true, decide_eq_true_eq]
      constructor
      · linarith [hranges.2.2.1]
      · linarith [hranges.2.2.2]
    constructor
    · simp [postLocationUpdate, hrole, hpid, hacc, updateDeliveryPartnerLocation,
        createLocationUpdate, hlat, hlon]
    · intro u hu
      simp only [postLocationUpdate, hrole, hpid, hacc, updateDeliveryPartnerLocation,
        createLocationUpdate, hlat, hlon] at hu
      simp at hu
      rcases hu with h | h
      · exact Or.inl h
      · subst h
        exact Or.inr hranges
  · intro p hsrole hp hlat hlon
    simp [socketLocationUpdate, hsrole, hp, createLocationUpdate,
      updateDeliveryPartnerLocation, hlat, hlon]
  · intro p hsrole hp hbad
    simp [socketLocationUpdate, hsrole, hp, updateDeliveryPartnerLocation, hbad]

/-- C6 witness: the amended theorem applied to a POST with latitude 1000
(schema rejection, 400, store unchanged) and to a socket event with latitude
1000 (numeric overflow, error acknowledgment, store unchanged). -/
theorem locationValidation_http_only_witness :
    postLocationUpdate dbPartnerOnly 777 authPartnerA 1000 0 none = (400, dbPartnerOnly) ∧
    socketLocationUpdate dbPartnerOnly 777 socketPartnerA 1000 0 none
      = (dbPartnerOnly,
         [Emission.ackError "location_update_error" "Failed to update location"]) :=
  ⟨(locationValidation_http_only dbPartnerOnly 777 authPartnerA socketPartnerA
      1000 0 none).1 (by decide) (by decide),
   (locationValidation_http_only dbPartnerOnly 777 authPartnerA socketPartnerA
      1000 0 none).2.2.2 partnerA (by decide) (by decide) (by decide)⟩

/-! ## C7 - location history filtering and ordering -/

/-- C7 counterexample: history(1, 0) is claimed to return exactly the samples
whose orderId equals the filter value 0, in strictly descending timestamp
order.  At a concrete store it returns two samples tagged with order 1 - the
zero filter is dropped by the bare-truthiness test - and the two returned
samples share one timestamp, so the order is not strictly descending
either. -/
theorem history_zero_filter_and_ties :
    getLocationHistory dbSamples 1 (some 0) = [sampleT1, sampleT2] ∧
    sampleT1.orderId ≠ some 0 ∧ sampleT2.orderId ≠ some 0 ∧
    sampleT1.timestamp = sampleT2.timestamp := by decide

/-- C7 (amended): for a nonzero order filter, history returns a permutation
of exactly the partner's samples tagged with that order, in non-increasing
timestamp order (newest first); with no filter it returns a permutation of
all the partner's samples, again non-increasing; the order is strictly
descending whenever the stored timestamps are pairwise distinct.  An orderId
of 0 behaves like an absent filter (JS bare-truthiness), which is the
behaviour the counterexample exhibits. -/
theorem getLocationHistory_spec (db : DB) (p : Nat) (oid : Nat) (hoid : oid ≠ 0) :
    (getLocationHistory db p (some oid)).Perm
      (db.locationUpdates.filter
        (fun u => u.deliveryPartnerId == p && u.orderId == some oid)) ∧
    (getLocationHistory db p (some oid)).Pairwise tsDescOrder ∧
    (getLocationHistory db p none).Perm
      (db.locationUpdates.filter (fun u => u.deliveryPartnerId == p)) ∧
    (getLocationHistory db p none).Pairwise tsDescOrder ∧
    (db.locationUpdates.Pairwise (fun a b => a.timestamp ≠ b.timestamp) →
      (getLocationHistory db p (some oid)).Pairwise
        (fun a b => b.timestamp < a.timestamp)) := by
  have hb : (oid != 0) = true := by simpa using hoid
  have hfil : (fun u : LocationUpdate => u.deliveryPartnerId == p &&
      (if jsTruthyNum (some oid) then u.orderId == some oid else true)) =
      (fun u : LocationUpdate => u.deliveryPartnerId == p && u.orderId == some oid) := by
    funext u
    simp [jsTruthyNum, hb]
  have hfilnone : (fun u : LocationUpdate => u.deliveryPartnerId == p &&
      (if jsTruthyNum none then u.orderId == none else true)) =
      (fun u : LocationUpdate => u.deliveryPartnerId == p) := by
    funext u
    simp [jsTruthyNum]
  refine ⟨?_, ?_, ?_, ?_, ?_⟩
  · unfold getLocationHistory
    rw [hfil]
    exact List.perm_insertionSort _ _
  · exact List.sorted_insertionSort tsDescOrder _
  · unfold getLocationHistory
    rw [hfilnone]
    exact List.perm_insertionSort _ _
  · exact List.sorted_insertionSort tsDescOrder _
  · intro hdist
    have h1 : (getLocationHistory db p (some oid)).Pairwise tsDescOrder :=
      List.sorted_insertionSort tsDescOrder _
    have hperm : (getLocationHistory db p (some oid)).Perm
        (db.locationUpdates.filter (fun u => u.deliveryPartnerId == p &&
          (if jsTruthyNum (some oid) then u.orderId == some oid else true))) :=
      List.perm_insertionSort _ _
    have h2fil : (db.locationUpdates.filter (fun u => u.deliveryPartnerId == p &&
        (if jsTruthyNum (some oid) then u.orderId == some oid else true))).Pairwise
        (fun a b => a.timestamp ≠ b.timestamp) :=
      List.Pairwise.sublist (List.filter_sublist _) hdist
    have h2 : (getLocationHistory db p (some oid)).Pairwise
        (fun a b => a.timestamp ≠ b.timestamp) :=
      (List.Perm.pairwise_iff (fun h => h.symm) hperm).mpr h2fil
    exact (h1.and h2).imp (fun h => Nat.lt_of_le_of_ne h.1 (Ne.symm h.2))

/-- C7 witness: the amended theorem applied at the two-sample store with the
nonzero order filter 1. -/
theorem getLocationHistory_spec_witness :
    (getLocationHistory dbSamples 1 (some 1)).Perm
      (dbSamples.locationUpdates.filter
        (fun u => u.deliveryPartnerId == 1 && u.orderId == some 1)) ∧
    (getLocationHistory dbSamples 1 (some 1)).Pairwise tsDescOrder :=
  let h := getLocationHistory_spec dbSamples 1 1 (by decide)
  ⟨h.1, h.2.1⟩

/-! ## C10 - latest position versus history head -/

/-- C10 counterexample: the latest query and the history query are two
independent SELECTs, and ORDER BY timestamp DESC fixes no order among tied
timestamps.  At a store where partner 1 has two samples sharing one
timestamp, a row-store may legally answer the LIMIT 1 latest query with
sampleT2 while answering the history query with [sampleT1, sampleT2]; then
latest differs from the history head, so the claimed identity is not a
guarantee of the program. -/
theorem latest_head_tie_disagreement :
    legalLatestResult dbSamples 1 (some sampleT2) ∧
    legalHistoryResult dbSamples 1 none [sampleT1, sampleT2] ∧
    some sampleT2 ≠ ([sampleT1, sampleT2].head?) := by
  refine ⟨⟨[sampleT2, sampleT1], ⟨by decide, by decide⟩, by decide⟩,
    ⟨by decide, by decide⟩, by decide⟩

/-- C10 (amended): stated against the row-store's ORDER BY contract, under
which the executable latest and history queries are each one legal result.
Every legal latest result is empty exactly when the partner has no stored
sample, and a returned sample is one of the partner's stored samples with
maximal timestamp.  The head-of-history identity holds for every pair of
legal results whenever the stored timestamps are pairwise distinct; under
ties the two independent queries need not agree (see the counterexample). -/
theorem getLatest_history_relational_spec (db : DB) (p : Nat) :
    legalLatestResult db p (getLatestLocationForPartner db p) ∧
    legalHistoryResult db p none (getLocationHistory db p none) ∧
    (∀ r, legalLatestResult db p r →
      (r = none ↔ ∀ u ∈ db.locationUpdates, u.deliveryPartnerId ≠ p)) ∧
    (∀ r u, legalLatestResult db p r → r = some u →
      u ∈ db.locationUpdates ∧ u.deliveryPartnerId = p ∧
      ∀ v ∈ db.locationUpdates, v.deliveryPartnerId = p →
        v.timestamp ≤ u.timestamp) ∧
    (db.locationUpdates.Pairwise (fun a b => a.timestamp ≠ b.timestamp) →
      ∀ r h, legalLatestResult db p r → legalHistoryResult db p none h →
        r = h.head?) := by
  refine ⟨?_, ?_, ?_, ?_, ?_⟩
  · exact ⟨List.insertionSort tsDescOrder
      (db.locationUpdates.filter (fun u => u.deliveryPartnerId == p)),
      ⟨List.perm_insertionSort _ _, List.sorted_insertionSort _ _⟩, rfl⟩
  · exact ⟨List.perm_insertionSort _ _, List.sorted_insertionSort _ _⟩
  · intro r hr
    obtain ⟨out, ⟨hperm, _⟩, rfl⟩ := hr
    constructor
    · intro h
      rw [List.head?_eq_none_iff] at h
      rw [h] at hperm
      have hnil : db.locationUpdates.filter (fun u => u.deliveryPartnerId == p) = [] :=
        hperm.nil_eq.symm
      intro u hu
      have := List.filter_eq_nil_iff.mp hnil u hu
      simpa using this
    · intro h
      have hnil : db.locationUpdates.filter (fun u => u.deliveryPartnerId == p) = [] :=
        List.filter_eq_nil_iff.mpr (fun a ha => by simpa using h a ha)
      rw [hnil] at hperm
      rw [List.head?_eq_none_iff]
      have hlen := hperm.length_eq
      simpa using List.length_eq_zero.mp (by simpa using hlen)
  · intro r u hr hru
    obtain ⟨out, ⟨hperm, hsort⟩, rfl⟩ := hr
    cases out with
    | nil => simp at hru
    | cons a t =>
      have hau : a = u := by simpa using hru
      subst hau
      have hmemfil : a ∈ db.locationUpdates.filter (fun x => x.deliveryPartnerId == p) :=
        hperm.subset (List.mem_cons_self a t)
      have hmem := List.mem_filter.mp hmemfil
      refine ⟨hmem.1, by simpa using hmem.2, ?_⟩
      intro v hv hvp
      have hvfil : v ∈ db.locationUpdates.filter (fun x => x.deliveryPartnerId == p) :=
        List.mem_filter.mpr ⟨hv, by simpa using hvp⟩
      have hvout : v ∈ a :: t := hperm.symm.subset hvfil
      rcases List.mem_cons.mp hvout with rfl | hvt
      · exact Nat.le_refl _
      · exact List.rel_of_sorted_cons hsort v hvt
  · intro hdist r h hr hh
    obtain ⟨out, ⟨hperm, hsort⟩, rfl⟩ := hr
    obtain ⟨hperm2, hsort2⟩ := hh
    have hpred : (fun u : LocationUpdate => u.deliveryPartnerId == p &&
        (if jsTruthyNum none then u.orderId == none else true)) =
        (fun u : LocationUpdate => u.deliveryPartnerId == p) := by
      funext u
      simp [jsTruthyNum]
    rw [hpred] at hperm2
    have hfd : (db.locationUpdates.filter
        (fun u => u.deliveryPartnerId == p)).Pairwise
        (fun a b => a.timestamp ≠ b.timestamp) :=
      List.Pairwise.sublist (List.filter_sublist _) hdist
    have hne1 : out.Pairwise (fun a b => a.timestamp ≠ b.timestamp) :=
      (List.Perm.pairwise_iff (fun hx => hx.symm) hperm).mpr hfd
    have hne2 : h.Pairwise (fun a b => a.timestamp ≠ b.timestamp) :=
      (List.Perm.pairwise_iff (fun hx => hx.symm) hperm2).mpr hfd
    have hs1 : out.Pairwise tsStrictDescOrder :=
      (hsort.and hne1).imp (fun hx => Nat.lt_of_le_of_ne hx.1 (Ne.symm hx.2))
    have hs2 : h.Pairwise tsStrictDescOrder :=
      (hsort2.and hne2).imp (fun hx => Nat.lt_of_le_of_ne hx.1 (Ne.symm hx.2))
    have hp12 : out.Perm h := hperm.trans hperm2.symm
    have heq : out = h := List.eq_of_perm_of_sorted hp12 hs1 hs2
    rw [heq]

/-- C10 witness: the amended theorem applied at the distinct-timestamp store:
its tie-free clause makes the executable latest result equal the executable
history head. -/
theorem getLatest_history_relational_spec_witness :
    legalLatestResult dbSamplesDistinct 1 (getLatestLocationForPartner dbSamplesDistinct 1) ∧
    getLatestLocationForPartner dbSamplesDistinct 1
      = (getLocationHistory dbSamplesDistinct 1 none).head? :=
  let T := getLatest_history_relational_spec dbSamplesDistinct 1
  ⟨T.1, T.2.2.2.2 (by decide) (getLatestLocationForPartner dbSamplesDistinct 1)
      (getLocationHistory dbSamplesDistinct 1 none) T.1 T.2.1⟩

end TaskTracker
